import Mathlib

/-!
# Verification of `src/api/generate-payment.js`

Shallow embedding of the PIX payment-creation request handler.  The handler
validates an incoming HTTP request, looks up a payment link and an account
record in a document store, converts the link's decimal value to integer
cents, dispatches on the account's `activeGateway` to one of two payment
providers (BuckPay, ZeroOnePay), issues one outbound HTTP call and
normalizes the provider response.

The embedding makes the ambient effects explicit:
* the document store and the two provider endpoints are packaged in a
  `World` of oracles;
* the handler returns an `Outcome` that is either a response together with
  the list of outbound HTTP requests that were issued, or an uncaught
  exception (the JS code can throw outside its `try` block);
* JavaScript truthiness of optional string fields (`undefined` and `""` are
  falsy) is modelled by `jsTruthy`, and `x.message || fallback` by
  `jsOrElse`;
* `Math.round` on the (rational-valued) amount is Mathlib's `round`,
  i.e. `⌊x + 1/2⌋`, which is exactly JavaScript's round-half-up.
-/

namespace GeneratePayment

/-- JavaScript truthiness of an optional string field: `undefined`/missing
and the empty string are falsy, every other string is truthy. -/
def jsTruthy : Option String → Bool
  | none => false
  | some s => !(s == "")

/-- JavaScript `m.message || fallback`: the fallback is used when the field
is missing or the empty string (both falsy). -/
def jsOrElse : Option String → String → String
  | none, fb => fb
  | some s, fb => if s == "" then fb else s

/-- The JSON body of the incoming request; each field may be absent. -/
structure ReqBody where
  linkId : Option String
  accountId : Option String
  customerName : Option String
  deriving Repr, DecidableEq

/-- The incoming HTTP request.  `body = none` models a nullish
`request.body` (no JSON body was parsed), for which the destructuring on
line 72 of the source throws. -/
structure Request where
  method : String
  body : Option ReqBody
  deriving Repr, DecidableEq

/-- The payment-link document: `planValue` is the decimal currency value. -/
structure LinkData where
  planValue : ℚ
  deriving Repr, DecidableEq

/-- The per-account gateway credential fields read by the handler. -/
structure GatewaySettings where
  buckpay_token : Option String
  zeroonepay_token : Option String
  zeroonepay_offer_hash : Option String
  zeroonepay_product_hash : Option String
  deriving Repr, DecidableEq

/-- The account document: active gateway name and credentials. -/
structure AccountData where
  activeGateway : String
  gatewaySettings : GatewaySettings
  deriving Repr, DecidableEq

/-- The document store: `links accountId linkId` is the document at
`accounts/{accountId}/links/{linkId}`, `accounts accountId` the one at
`accounts/{accountId}`. -/
structure Db where
  links : String → String → Option LinkData
  accounts : String → Option AccountData

/-- The JSON body the handler sends to BuckPay. -/
structure BuckpayBody where
  external_id : String
  amount : ℤ
  payment_method : String
  deriving Repr, DecidableEq

/-- An outbound HTTP request as the handler builds it: URL, query-string
parameters (in append order), method, headers (in order) and an optional
JSON body. -/
structure HttpRequest where
  url : String
  queryParams : List (String × String)
  method : String
  headers : List (String × String)
  jsonBody : Option BuckpayBody
  deriving Repr, DecidableEq

/-- `data.pix` of a BuckPay success response. -/
structure BuckpayPix where
  code : String
  qrcode_base64 : String
  deriving Repr, DecidableEq

/-- `data` of a BuckPay response; `pix = none` models an absent field. -/
structure BuckpayData where
  pix : Option BuckpayPix
  deriving Repr, DecidableEq

/-- The JSON body of a BuckPay response. -/
structure BuckpayJson where
  message : Option String
  data : Option BuckpayData
  deriving Repr, DecidableEq

/-- A BuckPay HTTP response: `ok` is `response.ok`, `json` the parsed body. -/
structure BuckpayResp where
  ok : Bool
  json : BuckpayJson
  deriving Repr, DecidableEq

/-- `data` of a ZeroOnePay success response. -/
structure ZeroOneData where
  pix_code : String
  qrcode_image : String
  deriving Repr, DecidableEq

/-- The JSON body of a ZeroOnePay response.  `success` is the truthiness of
the `success` flag; `data = none` models a falsy/absent `data` field. -/
structure ZeroOneJson where
  success : Bool
  data : Option ZeroOneData
  message : Option String
  deriving Repr, DecidableEq

/-- A ZeroOnePay HTTP response. -/
structure ZeroOneResp where
  ok : Bool
  json : ZeroOneJson
  deriving Repr, DecidableEq

/-- The ambient world: the document store and the two provider endpoints,
each an oracle from the outbound request to the provider's response. -/
structure World where
  db : Db
  fetchBuckpay : HttpRequest → BuckpayResp
  fetchZeroOne : HttpRequest → ZeroOneResp

/-- The JSON body of a handler response.  The success shape
`{success:true, pixCode, qrCodeImage}` has `error = none`; the error shape
`{success:false, error}` has the two pix fields `none`. -/
structure RespJson where
  success : Bool
  error : Option String
  pixCode : Option String
  qrCodeImage : Option String
  deriving Repr, DecidableEq

/-- A handler response body: JSON, plain text (405) or empty (OPTIONS). -/
inductive RespBody where
  | json (j : RespJson)
  | text (s : String)
  | empty
  deriving Repr, DecidableEq

/-- The handler's HTTP response: status, optional `Allow` header, body. -/
structure HttpResponse where
  status : Nat
  allow : Option String
  body : RespBody
  deriving Repr, DecidableEq

/-- Result of one handler invocation: either a response together with the
outbound HTTP calls that were issued, or an uncaught exception escaping
the handler. -/
inductive Outcome where
  | responded (resp : HttpResponse) (calls : List HttpRequest)
  | crashed (msg : String)
  deriving Repr, DecidableEq

/-- `Math.round(linkData.planValue * 100)` (source line 97).  Mathlib's
`round` is `⌊x + 1/2⌋`, exactly JavaScript's `Math.round`. -/
def amountInCents (planValue : ℚ) : ℤ := round (planValue * 100)

/-- Modelled from the spec: round-half-away-from-zero, the rounding mode
named by the specification for the amount conversion. -/
def roundHalfAwayFromZero (q : ℚ) : ℤ :=
  if 0 ≤ q then ⌊q + 1 / 2⌋ else -⌊-q + 1 / 2⌋

def msgIncomplete : String :=
  "Dados incompletos: linkId, accountId e customerName são obrigatórios."

def msgLinkNotFound : String := "Link de pagamento não encontrado."

def msgAccountNotFound : String := "Conta de configuração não encontrada."

def msgBuckpayNoToken : String := "Token da BuckPay não configurado."

def msgBuckpayApiError : String := "Erro na API BuckPay"

def msgZeroOneIncomplete : String := "Credenciais da ZeroOnePay incompletas."

def msgZeroOneApiError : String := "Erro na API ZeroOnePay"

def msgZeroOneFail : String := "Falha ao gerar PIX na ZeroOnePay."

/-- `` `Gateway '${activeGateway}' não suportado.` `` (source line 175). -/
def msgUnsupported (g : String) : String :=
  "Gateway \x27" ++ g ++ "\x27 não suportado."

def msgCrashNoBody : String :=
  "TypeError: Cannot destructure property \x27linkId\x27 of \x27request.body\x27 as it is undefined."

def msgTypeErrorPix : String :=
  "TypeError: Cannot read properties of undefined (reading \x27pix\x27)"

def msgTypeErrorCode : String :=
  "TypeError: Cannot read properties of undefined (reading \x27code\x27)"

/-- `response.status(s).json({success:false, error:msg})`. -/
def jsonErr (status : Nat) (msg : String) : HttpResponse :=
  ⟨status, none, RespBody.json ⟨false, some msg, none, none⟩⟩

/-- `response.status(200).json({success:true, ...pixData})`. -/
def jsonOk (pixCode qrCodeImage : String) : HttpResponse :=
  ⟨200, none, RespBody.json ⟨true, none, some pixCode, some qrCodeImage⟩⟩

/-- The outbound BuckPay request (source lines 108-120): fixed URL,
JSON body `{external_id, amount, payment_method:"pix"}`, bearer auth and
the fixed `User-Agent`. -/
def buckpayRequest (token linkId : String) (amount : ℤ) : HttpRequest :=
  { url := "https://api.realtechdev.com.br/v1/transactions"
    queryParams := []
    method := "POST"
    headers := [("Content-Type", "application/json"),
                ("Authorization", "Bearer " ++ token),
                ("User-Agent", "Buckpay API")]
    jsonBody := some ⟨linkId, amount, "pix"⟩ }

/-- The outbound ZeroOnePay request (source lines 142-150): everything in
the query string in append order, no headers, no body. -/
def zeroOneRequest (token offerHash productHash customerName : String)
    (amount : ℤ) : HttpRequest :=
  { url := "https://api.zeroonepay.com.br/api/public/v1/checkout/pix"
    queryParams := [("api_token", token),
                    ("offer_hash", offerHash),
                    ("product_hash", productHash),
                    ("email", "cliente@email.com"),
                    ("name", customerName),
                    ("amount", toString amount)]
    method := "POST"
    headers := []
    jsonBody := none }

/-- Result of the `try` block: a `return`ed response or a thrown error,
in both cases with the outbound calls issued so far. -/
inductive TryResult where
  | ret (resp : HttpResponse) (calls : List HttpRequest)
  | thrown (msg : String) (calls : List HttpRequest)
  deriving Repr, DecidableEq

/-- The `switch (activeGateway)` of the source (lines 102-176). -/
def gatewayDispatch (w : World) (linkId customerName : String) (amount : ℤ)
    (acct : AccountData) : TryResult :=
  if acct.activeGateway == "buckpay" then
    let tok := acct.gatewaySettings.buckpay_token
    if !(jsTruthy tok) then TryResult.thrown msgBuckpayNoToken []
    else
      let outReq := buckpayRequest (tok.getD "") linkId amount
      let resp := w.fetchBuckpay outReq
      if !resp.ok then
        TryResult.thrown (jsOrElse resp.json.message msgBuckpayApiError) [outReq]
      else
        match resp.json.data with
        | none => TryResult.thrown msgTypeErrorPix [outReq]
        | some d =>
          match d.pix with
          | none => TryResult.thrown msgTypeErrorCode [outReq]
          | some pix =>
            TryResult.ret
              (jsonOk pix.code ("data:image/png;base64," ++ pix.qrcode_base64))
              [outReq]
  else if acct.activeGateway == "zeroonepay" then
    let s := acct.gatewaySettings
    if !(jsTruthy s.zeroonepay_token) || !(jsTruthy s.zeroonepay_offer_hash)
        || !(jsTruthy s.zeroonepay_product_hash) then
      TryResult.thrown msgZeroOneIncomplete []
    else
      let outReq := zeroOneRequest (s.zeroonepay_token.getD "")
        (s.zeroonepay_offer_hash.getD "") (s.zeroonepay_product_hash.getD "")
        customerName amount
      let resp := w.fetchZeroOne outReq
      if !resp.ok then
        TryResult.thrown (jsOrElse resp.json.message msgZeroOneApiError) [outReq]
      else if !resp.json.success || resp.json.data == none then
        TryResult.thrown (jsOrElse resp.json.message msgZeroOneFail) [outReq]
      else
        match resp.json.data with
        | none => TryResult.thrown (jsOrElse resp.json.message msgZeroOneFail) [outReq]
        | some d => TryResult.ret (jsonOk d.pix_code d.qrcode_image) [outReq]
  else
    TryResult.thrown (msgUnsupported acct.activeGateway) []

/-- The `try` block (source lines 78-181): the two lookups, the two 404
early returns, the amount conversion and the gateway dispatch. -/
def tryBlock (w : World) (linkId accountId customerName : String) : TryResult :=
  match w.db.links accountId linkId with
  | none => TryResult.ret (jsonErr 404 msgLinkNotFound) []
  | some linkData =>
    match w.db.accounts accountId with
    | none => TryResult.ret (jsonErr 404 msgAccountNotFound) []
    | some acct =>
      gatewayDispatch w linkId customerName (amountInCents linkData.planValue) acct

/-- The exported request handler (source lines 55-186).  CORS is out of
scope; OPTIONS and non-POST are answered before the body is touched; the
body destructuring happens OUTSIDE the `try`, so a nullish body makes the
handler throw; everything inside the `try` is converted by the `catch`
into a 500 JSON error envelope. -/
def handler (w : World) (req : Request) : Outcome :=
  if req.method == "OPTIONS" then
    Outcome.responded ⟨200, none, RespBody.empty⟩ []
  else if !(req.method == "POST") then
    Outcome.responded ⟨405, some "POST", RespBody.text "Método não permitido"⟩ []
  else
    match req.body with
    | none => Outcome.crashed msgCrashNoBody
    | some b =>
      if !(jsTruthy b.linkId) || !(jsTruthy b.accountId)
          || !(jsTruthy b.customerName) then
        Outcome.responded (jsonErr 400 msgIncomplete) []
      else
        match tryBlock w (b.linkId.getD "") (b.accountId.getD "")
            (b.customerName.getD "") with
        | TryResult.ret resp calls => Outcome.responded resp calls
        | TryResult.thrown msg calls =>
          Outcome.responded (jsonErr 500 msg) calls

/-! ## Sample worlds and requests (used by the witnesses) -/

/-- Sample credential set with every field configured. -/
def sampleSettings : GatewaySettings :=
  ⟨some "tokB", some "tok0", some "offer", some "prod"⟩

def buckpayAccount : AccountData := ⟨"buckpay", sampleSettings⟩

def zeroOneAccount : AccountData := ⟨"zeroonepay", sampleSettings⟩

/-- A store holding link `link1` (value 10) and account `acc1`. -/
def sampleDb (acct : AccountData) : Db :=
  ⟨fun a l => if a == "acc1" && l == "link1" then some ⟨10⟩ else none,
   fun a => if a == "acc1" then some acct else none⟩

def sampleBuckpayResp : BuckpayResp := ⟨true, ⟨none, some ⟨some ⟨"ABC", "Zm9v"⟩⟩⟩⟩

def sampleZeroOneResp : ZeroOneResp :=
  ⟨true, ⟨true, some ⟨"XYZ", "https://img/x.png"⟩, none⟩⟩

def w1 : World :=
  ⟨sampleDb buckpayAccount, fun _ => sampleBuckpayResp,
   fun _ => ⟨false, ⟨false, none, none⟩⟩⟩

def w2 : World :=
  ⟨sampleDb zeroOneAccount, fun _ => ⟨false, ⟨none, none⟩⟩,
   fun _ => sampleZeroOneResp⟩

def req1 : Request := ⟨"POST", some ⟨some "link1", some "acc1", some "Cliente"⟩⟩

/-- A store with no link documents at all. -/
def wNoLink : World :=
  ⟨⟨fun _ _ => none, fun a => if a == "acc1" then some buckpayAccount else none⟩,
   fun _ => sampleBuckpayResp, fun _ => sampleZeroOneResp⟩

/-- A store holding the link but no account document. -/
def wNoAccount : World :=
  ⟨⟨fun a l => if a == "acc1" && l == "link1" then some ⟨10⟩ else none,
    fun _ => none⟩,
   fun _ => sampleBuckpayResp, fun _ => sampleZeroOneResp⟩

def unknownAccount : AccountData := ⟨"unknown-provider", sampleSettings⟩

def wUnknown : World :=
  ⟨sampleDb unknownAccount, fun _ => sampleBuckpayResp,
   fun _ => sampleZeroOneResp⟩

/-- Credentials with no BuckPay token configured. -/
def noTokenSettings : GatewaySettings := ⟨none, some "tok0", none, some "prod"⟩

def noTokenAccount : AccountData := ⟨"buckpay", noTokenSettings⟩

def wNoToken : World :=
  ⟨sampleDb noTokenAccount, fun _ => sampleBuckpayResp,
   fun _ => sampleZeroOneResp⟩

/-- A ZeroOnePay response with HTTP 200 but a false `success` flag. -/
def zeroFailResp : ZeroOneResp := ⟨true, ⟨false, none, some "Saldo insuficiente"⟩⟩

def wZeroFail : World :=
  ⟨sampleDb zeroOneAccount, fun _ => ⟨false, ⟨none, none⟩⟩,
   fun _ => zeroFailResp⟩

/-- A POST whose body lacks `customerName`. -/
def reqMissing : Request := ⟨"POST", some ⟨some "link1", some "acc1", none⟩⟩

/-- A POST with a nullish body. -/
def reqNoBody : Request := ⟨"POST", none⟩

/-- Two requests that differ only in `customerName`. -/
def reqAlice : Request := ⟨"POST", some ⟨some "link1", some "acc1", some "Alice"⟩⟩

def reqBob : Request := ⟨"POST", some ⟨some "link1", some "acc1", some "Bob"⟩⟩

/-! ## Reduction lemmas -/

/-- A validated POST request runs the `try` block and the `catch`
converts a thrown error into a 500 envelope. -/
theorem handler_post (w : World) (req : Request) (lid aid nm : String)
    (hm : req.method = "POST")
    (hb : req.body = some ⟨some lid, some aid, some nm⟩)
    (hlid : lid ≠ "") (haid : aid ≠ "") (hnm : nm ≠ "") :
    handler w req =
      match tryBlock w lid aid nm with
      | TryResult.ret resp calls => Outcome.responded resp calls
      | TryResult.thrown msg calls =>
        Outcome.responded (jsonErr 500 msg) calls := by
  unfold handler
  rw [hm, hb]
  simp [jsTruthy, hlid, haid, hnm]

/-- When both documents exist, the `try` block reaches the gateway
dispatch with the converted amount. -/
theorem tryBlock_found (w : World) (lid aid nm : String)
    (link : LinkData) (acct : AccountData)
    (hlink : w.db.links aid lid = some link)
    (hacct : w.db.accounts aid = some acct) :
    tryBlock w lid aid nm =
      gatewayDispatch w lid nm (amountInCents link.planValue) acct := by
  unfold tryBlock
  rw [hlink, hacct]

/-- The two concrete amount conversions used by the witnesses. -/
theorem amount_ten : amountInCents 10 = 1000 := by
  norm_num [amountInCents, round_eq]

theorem amount_1999 : amountInCents (1999 / 100) = 1999 := by
  norm_num [amountInCents, round_eq]

/-! ## Claims -/

/-- C1: for every POST request with `activeGateway = "buckpay"`, a
configured `buckpay_token`, and a successful provider response whose body
has `data.pix.code = "ABC"` and `data.pix.qrcode_base64 = "Zm9v"`, the
handler responds 200 with exactly
`{success:true, pixCode:"ABC", qrCodeImage:"data:image/png;base64,Zm9v"}`:
`pixCode` comes from `data.pix.code` and `qrCodeImage` is the
`data:image/png;base64,` prefix applied to `data.pix.qrcode_base64`. -/
theorem buckpay_success_normalization
    (w : World) (req : Request) (lid aid nm tok : String)
    (link : LinkData) (acct : AccountData)
    (hm : req.method = "POST")
    (hb : req.body = some ⟨some lid, some aid, some nm⟩)
    (hlid : lid ≠ "") (haid : aid ≠ "") (hnm : nm ≠ "")
    (hlink : w.db.links aid lid = some link)
    (hacct : w.db.accounts aid = some acct)
    (hg : acct.activeGateway = "buckpay")
    (htok : acct.gatewaySettings.buckpay_token = some tok) (htok2 : tok ≠ "")
    (hresp : w.fetchBuckpay
        (buckpayRequest tok lid (amountInCents link.planValue)) =
      ⟨true, ⟨none, some ⟨some ⟨"ABC", "Zm9v"⟩⟩⟩⟩) :
    handler w req =
      Outcome.responded (jsonOk "ABC" "data:image/png;base64,Zm9v")
        [buckpayRequest tok lid (amountInCents link.planValue)] := by
  rw [handler_post w req lid aid nm hm hb hlid haid hnm,
    tryBlock_found w lid aid nm link acct hlink hacct]
  unfold gatewayDispatch
  rw [hg, htok]
  simp [jsTruthy, htok2, hresp]

/-- C1 witness: a concrete world and request reaching the BuckPay success
path. -/
theorem buckpay_success_normalization_witness :
    handler w1 req1 =
      Outcome.responded (jsonOk "ABC" "data:image/png;base64,Zm9v")
        [buckpayRequest "tokB" "link1" 1000] := by
  have h := buckpay_success_normalization w1 req1 "link1" "acc1" "Cliente"
    "tokB" ⟨10⟩ buckpayAccount rfl rfl (by decide) (by decide) (by decide)
    rfl rfl rfl rfl (by decide) rfl
  rw [show ((⟨10⟩ : LinkData).planValue) = (10 : ℚ) from rfl, amount_ten] at h
  exact h

/-- C2: for every POST request with `activeGateway = "zeroonepay"` and all
three credentials configured, the outbound call is a POST carrying
`api_token`, `offer_hash`, `product_hash`, the hardcoded placeholder email
`cliente@email.com`, the customer name and the computed integer amount as
URL query parameters with no JSON body; and on a provider response
`{success:true, data:{pix_code:"XYZ", qrcode_image:"https://img/x.png"}}`
the handler responds 200 with
`{success:true, pixCode:"XYZ", qrCodeImage:"https://img/x.png"}`, using
`data.qrcode_image` directly without re-encoding. -/
theorem zeroonepay_request_and_normalization
    (w : World) (req : Request) (lid aid nm tok oh ph : String)
    (link : LinkData) (acct : AccountData)
    (hm : req.method = "POST")
    (hb : req.body = some ⟨some lid, some aid, some nm⟩)
    (hlid : lid ≠ "") (haid : aid ≠ "") (hnm : nm ≠ "")
    (hlink : w.db.links aid lid = some link)
    (hacct : w.db.accounts aid = some acct)
    (hg : acct.activeGateway = "zeroonepay")
    (ht : acct.gatewaySettings.zeroonepay_token = some tok) (ht2 : tok ≠ "")
    (ho : acct.gatewaySettings.zeroonepay_offer_hash = some oh) (ho2 : oh ≠ "")
    (hp : acct.gatewaySettings.zeroonepay_product_hash = some ph) (hp2 : ph ≠ "")
    (hresp : w.fetchZeroOne
        (zeroOneRequest tok oh ph nm (amountInCents link.planValue)) =
      ⟨true, ⟨true, some ⟨"XYZ", "https://img/x.png"⟩, none⟩⟩) :
    handler w req =
      Outcome.responded (jsonOk "XYZ" "https://img/x.png")
        [zeroOneRequest tok oh ph nm (amountInCents link.planValue)]
    ∧ (zeroOneRequest tok oh ph nm (amountInCents link.planValue)).method =
        "POST"
    ∧ (zeroOneRequest tok oh ph nm (amountInCents link.planValue)).jsonBody =
        none
    ∧ (zeroOneRequest tok oh ph nm (amountInCents link.planValue)).queryParams =
        [("api_token", tok), ("offer_hash", oh), ("product_hash", ph),
         ("email", "cliente@email.com"), ("name", nm),
         ("amount", toString (amountInCents link.planValue))] := by
  refine ⟨?_, rfl, rfl, rfl⟩
  rw [handler_post w req lid aid nm hm hb hlid haid hnm,
    tryBlock_found w lid aid nm link acct hlink hacct]
  unfold gatewayDispatch
  rw [hg]
  simp [jsTruthy, ht, ho, hp, ht2, ho2, hp2, hresp]

/-- C2 witness: a concrete world and request reaching the ZeroOnePay
success path. -/
theorem zeroonepay_request_and_normalization_witness :
    handler w2 req1 =
      Outcome.responded (jsonOk "XYZ" "https://img/x.png")
        [zeroOneRequest "tok0" "offer" "prod" "Cliente" 1000]
    ∧ (zeroOneRequest "tok0" "offer" "prod" "Cliente" (1000 : ℤ)).method =
        "POST"
    ∧ (zeroOneRequest "tok0" "offer" "prod" "Cliente" (1000 : ℤ)).jsonBody =
        none
    ∧ (zeroOneRequest "tok0" "offer" "prod" "Cliente" (1000 : ℤ)).queryParams =
        [("api_token", "tok0"), ("offer_hash", "offer"),
         ("product_hash", "prod"), ("email", "cliente@email.com"),
         ("name", "Cliente"), ("amount", "1000")] := by
  have h := zeroonepay_request_and_normalization w2 req1 "link1" "acc1"
    "Cliente" "tok0" "offer" "prod" ⟨10⟩ zeroOneAccount rfl rfl (by decide)
    (by decide) (by decide) rfl rfl rfl rfl (by decide) rfl (by decide) rfl
    (by decide) rfl
  rw [show ((⟨10⟩ : LinkData).planValue) = (10 : ℚ) from rfl, amount_ten] at h
  have hs : toString (1000 : ℤ) = "1000" := by decide
  rw [hs] at h
  exact h

/-- C3: the integer minor-unit amount sent to the gateway is
`round(planValue * 100)`; on the (nonnegative) currency domain this agrees
with round-half-away-from-zero, and `planValue = 10.00` yields 1000 while
`planValue = 19.99` yields 1999. -/
theorem amount_conversion (v : ℚ) (hv : 0 ≤ v) :
    amountInCents v = roundHalfAwayFromZero (v * 100)
    ∧ amountInCents 10 = 1000
    ∧ amountInCents (1999 / 100) = 1999 := by
  refine ⟨?_, amount_ten, amount_1999⟩
  unfold amountInCents roundHalfAwayFromZero
  rw [if_pos (mul_nonneg hv (by norm_num)), round_eq]

/-- C3 witness: the conversion at `planValue = 10`. -/
theorem amount_conversion_witness :
    amountInCents 10 = roundHalfAwayFromZero (10 * 100)
    ∧ amountInCents 10 = 1000
    ∧ amountInCents (1999 / 100) = 1999 :=
  amount_conversion 10 (by norm_num)

/-- C4: a missing link document yields 404 with the link-specific message,
and an existing link document under a missing account document yields 404
with the distinct account-specific message. -/
theorem not_found_messages
    (w : World) (req : Request) (lid aid nm : String)
    (hm : req.method = "POST")
    (hb : req.body = some ⟨some lid, some aid, some nm⟩)
    (hlid : lid ≠ "") (haid : aid ≠ "") (hnm : nm ≠ "") :
    (w.db.links aid lid = none →
      handler w req = Outcome.responded (jsonErr 404 msgLinkNotFound) [])
    ∧ (∀ link, w.db.links aid lid = some link → w.db.accounts aid = none →
      handler w req = Outcome.responded (jsonErr 404 msgAccountNotFound) []) := by
  constructor
  · intro hnone
    rw [handler_post w req lid aid nm hm hb hlid haid hnm]
    unfold tryBlock
    rw [hnone]
  · intro link hsome hnone
    rw [handler_post w req lid aid nm hm hb hlid haid hnm]
    unfold tryBlock
    rw [hsome, hnone]

/-- C4 witness: the two not-found messages at concrete worlds. -/
theorem not_found_messages_witness :
    handler wNoLink req1 = Outcome.responded (jsonErr 404 msgLinkNotFound) []
    ∧ handler wNoAccount req1 =
        Outcome.responded (jsonErr 404 msgAccountNotFound) [] :=
  ⟨(not_found_messages wNoLink req1 "link1" "acc1" "Cliente" rfl rfl
      (by decide) (by decide) (by decide)).1 rfl,
   (not_found_messages wNoAccount req1 "link1" "acc1" "Cliente" rfl rfl
      (by decide) (by decide) (by decide)).2 ⟨10⟩ rfl rfl⟩

/-- C5: a valid request whose account names a gateway that is neither
`"buckpay"` nor `"zeroonepay"` is answered 500 with `success:false` and an
error message that names the unrecognized `activeGateway` value. -/
theorem unsupported_gateway
    (w : World) (req : Request) (lid aid nm : String)
    (link : LinkData) (acct : AccountData)
    (hm : req.method = "POST")
    (hb : req.body = some ⟨some lid, some aid, some nm⟩)
    (hlid : lid ≠ "") (haid : aid ≠ "") (hnm : nm ≠ "")
    (hlink : w.db.links aid lid = some link)
    (hacct : w.db.accounts aid = some acct)
    (hg1 : acct.activeGateway ≠ "buckpay")
    (hg2 : acct.activeGateway ≠ "zeroonepay") :
    handler w req =
      Outcome.responded (jsonErr 500 (msgUnsupported acct.activeGateway)) []
    ∧ ∃ pre suf, msgUnsupported acct.activeGateway =
        pre ++ acct.activeGateway ++ suf := by
  refine ⟨?_, "Gateway \x27", "\x27 não suportado.", rfl⟩
  rw [handler_post w req lid aid nm hm hb hlid haid hnm,
    tryBlock_found w lid aid nm link acct hlink hacct]
  unfold gatewayDispatch
  simp [hg1, hg2]

/-- C5 witness: `activeGateway = "unknown-provider"` is answered 500 with a
message naming `"unknown-provider"`. -/
theorem unsupported_gateway_witness :
    handler wUnknown req1 =
      Outcome.responded (jsonErr 500 (msgUnsupported "unknown-provider")) []
    ∧ ∃ pre suf, msgUnsupported "unknown-provider" =
        pre ++ "unknown-provider" ++ suf :=
  unsupported_gateway wUnknown req1 "link1" "acc1" "Cliente" ⟨10⟩
    unknownAccount rfl rfl (by decide) (by decide) (by decide) rfl rfl
    (by decide) (by decide)

/-- C6: when the matched variant's required credentials are absent or
empty, the handler answers 500 and the list of outbound HTTP calls is
empty — no gateway call is ever issued. -/
theorem missing_credentials_no_outbound
    (w : World) (req : Request) (lid aid nm : String)
    (link : LinkData) (acct : AccountData)
    (hm : req.method = "POST")
    (hb : req.body = some ⟨some lid, some aid, some nm⟩)
    (hlid : lid ≠ "") (haid : aid ≠ "") (hnm : nm ≠ "")
    (hlink : w.db.links aid lid = some link)
    (hacct : w.db.accounts aid = some acct)
    (hcase :
      (acct.activeGateway = "buckpay"
        ∧ jsTruthy acct.gatewaySettings.buckpay_token = false)
      ∨ (acct.activeGateway = "zeroonepay"
        ∧ (jsTruthy acct.gatewaySettings.zeroonepay_token = false
          ∨ jsTruthy acct.gatewaySettings.zeroonepay_offer_hash = false
          ∨ jsTruthy acct.gatewaySettings.zeroonepay_product_hash = false))) :
    ∃ msg, handler w req = Outcome.responded (jsonErr 500 msg) [] := by
  rw [handler_post w req lid aid nm hm hb hlid haid hnm,
    tryBlock_found w lid aid nm link acct hlink hacct]
  unfold gatewayDispatch
  rcases hcase with ⟨hg, htok⟩ | ⟨hg, hcred⟩
  · rw [hg]
    simp [htok]
  · rw [hg]
    rcases hcred with h | h | h <;> simp [h]

/-- C6 witness: a BuckPay account with no token configured is answered 500
with no outbound call. -/
theorem missing_credentials_no_outbound_witness :
    ∃ msg, handler wNoToken req1 = Outcome.responded (jsonErr 500 msg) [] :=
  missing_credentials_no_outbound wNoToken req1 "link1" "acc1" "Cliente"
    ⟨10⟩ noTokenAccount rfl rfl (by decide) (by decide) (by decide) rfl rfl
    (Or.inl ⟨rfl, rfl⟩)

/-- C7: with `activeGateway = "zeroonepay"` and complete credentials, the
handler fails with 500 (provider message or generic fallback) exactly when
the provider response has a non-success HTTP status, or its body's success
flag is false or its `data` field absent; otherwise it responds 200 with
the normalized result. -/
theorem zeroonepay_failure_characterization
    (w : World) (req : Request) (lid aid nm tok oh ph : String)
    (link : LinkData) (acct : AccountData) (resp : ZeroOneResp)
    (hm : req.method = "POST")
    (hb : req.body = some ⟨some lid, some aid, some nm⟩)
    (hlid : lid ≠ "") (haid : aid ≠ "") (hnm : nm ≠ "")
    (hlink : w.db.links aid lid = some link)
    (hacct : w.db.accounts aid = some acct)
    (hg : acct.activeGateway = "zeroonepay")
    (ht : acct.gatewaySettings.zeroonepay_token = some tok) (ht2 : tok ≠ "")
    (ho : acct.gatewaySettings.zeroonepay_offer_hash = some oh) (ho2 : oh ≠ "")
    (hp : acct.gatewaySettings.zeroonepay_product_hash = some ph) (hp2 : ph ≠ "")
    (hresp : w.fetchZeroOne
        (zeroOneRequest tok oh ph nm (amountInCents link.planValue)) = resp) :
    (resp.ok = false →
      handler w req = Outcome.responded
        (jsonErr 500 (jsOrElse resp.json.message msgZeroOneApiError))
        [zeroOneRequest tok oh ph nm (amountInCents link.planValue)])
    ∧ (resp.ok = true →
        resp.json.success = false ∨ resp.json.data = none →
      handler w req = Outcome.responded
        (jsonErr 500 (jsOrElse resp.json.message msgZeroOneFail))
        [zeroOneRequest tok oh ph nm (amountInCents link.planValue)])
    ∧ (∀ d, resp.ok = true → resp.json.success = true →
        resp.json.data = some d →
      handler w req = Outcome.responded (jsonOk d.pix_code d.qrcode_image)
        [zeroOneRequest tok oh ph nm (amountInCents link.planValue)]) := by
  refine ⟨?_, ?_, ?_⟩
  · intro hok
    rw [handler_post w req lid aid nm hm hb hlid haid hnm,
      tryBlock_found w lid aid nm link acct hlink hacct]
    unfold gatewayDispatch
    rw [hg]
    simp [jsTruthy, ht, ho, hp, ht2, ho2, hp2, hresp, hok]
  · intro hok hfail
    rw [handler_post w req lid aid nm hm hb hlid haid hnm,
      tryBlock_found w lid aid nm link acct hlink hacct]
    unfold gatewayDispatch
    rw [hg]
    rcases hfail with h | h <;>
      simp [jsTruthy, ht, ho, hp, ht2, ho2, hp2, hresp, hok, h]
  · intro d hok hsucc hdata
    rw [handler_post w req lid aid nm hm hb hlid haid hnm,
      tryBlock_found w lid aid nm link acct hlink hacct]
    unfold gatewayDispatch
    rw [hg]
    simp [jsTruthy, ht, ho, hp, ht2, ho2, hp2, hresp, hok, hsucc, hdata]

/-- C7 witness: HTTP 200 with `success:false` is answered 500 carrying the
provider's message. -/
theorem zeroonepay_failure_characterization_witness :
    handler wZeroFail req1 =
      Outcome.responded (jsonErr 500 "Saldo insuficiente")
        [zeroOneRequest "tok0" "offer" "prod" "Cliente" 1000] := by
  have h := (zeroonepay_failure_characterization wZeroFail req1 "link1"
    "acc1" "Cliente" "tok0" "offer" "prod" ⟨10⟩ zeroOneAccount zeroFailResp
    rfl rfl (by decide) (by decide) (by decide) rfl rfl rfl rfl (by decide)
    rfl (by decide) rfl (by decide) rfl).2.1 rfl (Or.inl rfl)
  rw [show ((⟨10⟩ : LinkData).planValue) = (10 : ℚ) from rfl, amount_ten] at h
  exact h

/-- C8: a POST missing any of `linkId`, `accountId`, `customerName` is
answered 400 with `success:false` and a descriptive message, makes no
outbound call (empty call list) and reads nothing from the world: the
outcome is identical for every world. -/
theorem missing_fields_pure_400
    (w wAlt : World) (req : Request) (b : ReqBody)
    (hm : req.method = "POST") (hb : req.body = some b)
    (hmiss : jsTruthy b.linkId = false ∨ jsTruthy b.accountId = false
      ∨ jsTruthy b.customerName = false) :
    handler w req = Outcome.responded (jsonErr 400 msgIncomplete) []
    ∧ handler w req = handler wAlt req := by
  have key : ∀ w0 : World,
      handler w0 req = Outcome.responded (jsonErr 400 msgIncomplete) [] := by
    intro w0
    unfold handler
    rw [hm, hb]
    rcases hmiss with h | h | h <;> simp [h]
  exact ⟨key w, (key w).trans (key wAlt).symm⟩

/-- C8 witness: a POST without `customerName` is answered 400 identically
in two different worlds. -/
theorem missing_fields_pure_400_witness :
    handler w1 reqMissing = Outcome.responded (jsonErr 400 msgIncomplete) []
    ∧ handler w1 reqMissing = handler w2 reqMissing :=
  missing_fields_pure_400 w1 w2 reqMissing ⟨some "link1", some "acc1", none⟩
    rfl rfl (Or.inr (Or.inr rfl))

/-- C9 counterexample: a POST whose body is nullish makes the handler
throw an uncaught TypeError — the destructuring on source line 72 happens
outside the `try` block, so this failure is not converted into a JSON
error envelope. -/
theorem handler_crash_on_nullish_body :
    handler w1 reqNoBody = Outcome.crashed msgCrashNoBody := rfl

/-- C9 (amended): every request except a POST with a nullish body gets a
response — every failure after the body destructuring is caught by the
`try`/`catch` and converted into a JSON error envelope. -/
theorem handler_total_with_body (w : World) (req : Request)
    (h : req.method = "POST" → req.body ≠ none) :
    ∃ resp calls, handler w req = Outcome.responded resp calls := by
  unfold handler
  split
  · exact ⟨_, _, rfl⟩
  next h1 =>
    split
    · exact ⟨_, _, rfl⟩
    next h2 =>
      have hm : req.method = "POST" := by
        have hb2 : (req.method == "POST") = true := by
          revert h2
          cases hx : (req.method == "POST") <;> simp [hx]
        simpa using hb2
      split
      next hbody => exact absurd hbody (h hm)
      next b hbody =>
        split
        · exact ⟨_, _, rfl⟩
        · split <;> exact ⟨_, _, rfl⟩

/-- C9 (amended) witness: a concrete POST with a body gets a response. -/
theorem handler_total_with_body_witness :
    ∃ resp calls, handler w1 req1 = Outcome.responded resp calls :=
  handler_total_with_body w1 req1 (fun _ => by decide)

/-- Helper for C10: the `try` block never reads the customer name when the
looked-up account dispatches to BuckPay. -/
theorem tryBlock_buckpay_name_irrel (w : World) (lid aid n1 n2 : String)
    (hg : ∀ acct, w.db.accounts aid = some acct →
      acct.activeGateway = "buckpay") :
    tryBlock w lid aid n1 = tryBlock w lid aid n2 := by
  cases hL : w.db.links aid lid with
  | none => unfold tryBlock; rw [hL]
  | some link =>
    cases hA : w.db.accounts aid with
    | none => unfold tryBlock; rw [hL, hA]
    | some acct =>
      rw [tryBlock_found w lid aid n1 link acct hL hA,
        tryBlock_found w lid aid n2 link acct hL hA]
      have hga := hg acct hA
      unfold gatewayDispatch
      rw [hga]
      simp

/-- C10: for BuckPay accounts the handler's behaviour — outbound call
included — does not depend on `customerName`: two valid requests that
differ only in the customer name produce identical outcomes in the same
world. -/
theorem buckpay_customername_noninterference
    (w : World) (r1 r2 : Request) (b1 b2 : ReqBody)
    (hm1 : r1.method = "POST") (hm2 : r2.method = "POST")
    (hb1 : r1.body = some b1) (hb2 : r2.body = some b2)
    (hl : b1.linkId = b2.linkId) (ha : b1.accountId = b2.accountId)
    (hc1 : jsTruthy b1.customerName = true)
    (hc2 : jsTruthy b2.customerName = true)
    (hg : ∀ acct, w.db.accounts (b1.accountId.getD "") = some acct →
      acct.activeGateway = "buckpay") :
    handler w r1 = handler w r2 := by
  rw [ha] at hg
  unfold handler
  rw [hm1, hm2, hb1, hb2]
  simp only [hl, ha, hc1, hc2, Bool.not_true, Bool.or_false]
  cases hx : (!jsTruthy b2.linkId || !jsTruthy b2.accountId) with
  | true => simp [hx]
  | false =>
    simp only [hx, Bool.false_eq_true, if_false]
    rw [tryBlock_buckpay_name_irrel w (b2.linkId.getD "") (b2.accountId.getD "")
      (b1.customerName.getD "") (b2.customerName.getD "") hg]

/-- C10 witness: two concrete requests differing only in the customer name
are handled identically by the BuckPay world. -/
theorem buckpay_customername_noninterference_witness :
    handler w1 reqAlice = handler w1 reqBob :=
  buckpay_customername_noninterference w1 reqAlice reqBob
    ⟨some "link1", some "acc1", some "Alice"⟩
    ⟨some "link1", some "acc1", some "Bob"⟩
    rfl rfl rfl rfl rfl rfl (by decide) (by decide)
    (fun acct hacct => by injection hacct with h; rw [← h]; rfl)

end GeneratePayment
